import Mathlib

/-!
Verification of the MediAI agent-orchestration and ingestion core.

This file gives a shallow embedding of the Python sources under
`src/agents/` and proves properties of the embedded definitions:

* `src/agents/core/base_agent.py` — `BaseAgent.execute`, `AgentResult`,
  `ValidationResult`;
* `src/agents/crews/data_pipeline_crew.py` — `DataPipelineCrew.kickoff`;
* `src/agents/examples/example_data_pipeline_crew.py` — the example
  crew's `kickoff` with its quality-score threshold;
* `src/agents/examples/example_orchestrator.py` —
  `WorkflowOrchestrator.execute_workflow` and its decision gates;
* `src/agents/roles/data_engineer.py` — `DataIngestionAgent._execute`
  (checkpointed batch ingestion loop);
* `src/agents/examples/example_data_ingestion_agent.py` —
  `_connect_with_retry` and the connect-then-ingest structure of the
  example agent's `_execute`;
* `src/agents/tools/file_tool.py` — `FileTool.count_csv_rows`.

Modelling conventions: Python dicts whose keys matter become structures;
optional dict entries become `Option`; exceptions raised by core logic
become `Except String`; logging, timestamps, `metrics`/`metadata`
bookkeeping and tqdm progress bars are dropped (no claim mentions them).
Where a claim speaks of "never invoked" the embedding instruments the
control flow with ghost call counters, mirroring the spec's own
suggestion to "verify via a call counter".
-/

namespace MediAI

/-! ## Base agent (`src/agents/core/base_agent.py`) -/

/-- `AgentStatus` enum from `base_agent.py`. -/
inductive AgentStatus : Type
  | idle
  | running
  | success
  | failed
  | paused
deriving DecidableEq, Repr

/-- `AgentResult`: status, output and errors of one execution.
The Python object also carries `metrics`, `metadata` and a `timestamp`;
these are bookkeeping no claim mentions and are not modelled. -/
structure AgentResult (Out : Type) : Type where
  status : AgentStatus
  output : Option Out
  errors : List String
deriving DecidableEq, Repr

/-- `AgentResult.is_success` from `base_agent.py`. -/
def AgentResult.is_success {Out : Type} (r : AgentResult Out) : Bool :=
  r.status == AgentStatus.success

/-- `ValidationResult` from `base_agent.py`. -/
structure ValidationResult : Type where
  is_valid : Bool
  errors : List String
deriving DecidableEq, Repr

/-- The mutable part of a `BaseAgent`: its `status` field and
`execution_history` list. -/
structure AgentState (Out : Type) : Type where
  status : AgentStatus
  execution_history : List (AgentResult Out)
deriving DecidableEq, Repr

/-- Everything observable about one `BaseAgent.execute` call: the updated
agent state, the returned result, and a ghost counter of how many times
the core logic `_execute` was invoked. -/
structure ExecOutcome (Out : Type) : Type where
  agent : AgentState Out
  result : AgentResult Out
  coreCalls : Nat
deriving DecidableEq, Repr

/-- `BaseAgent.execute` from `base_agent.py` (lines 107–161).
`validate_inputs` is the subclass's validator, `core` the subclass's
`_execute`; a Python exception raised by the core logic is embedded as
`Except.error` with the exception message. The transient `RUNNING`
status set on entry is overwritten before return and is not observable
in the returned state. -/
def BaseAgent.execute {Ctx Out : Type} (a : AgentState Out)
    (validate_inputs : Ctx → ValidationResult)
    (core : Ctx → Except String Out) (context : Ctx) : ExecOutcome Out :=
  let validation_result := validate_inputs context
  if validation_result.is_valid = false then
    -- Step 1 failed: Failed result from the validation errors, appended
    -- to history and returned; the core logic is never reached.
    let result : AgentResult Out :=
      ⟨AgentStatus.failed, none, validation_result.errors⟩
    ⟨⟨AgentStatus.failed, a.execution_history ++ [result]⟩, result, 0⟩
  else
    match core context with
    | Except.ok output =>
        -- Step 2/3: core logic returned normally.
        let result : AgentResult Out := ⟨AgentStatus.success, some output, []⟩
        ⟨⟨AgentStatus.success, a.execution_history ++ [result]⟩, result, 1⟩
    | Except.error e =>
        -- `except Exception as e`: converted to a Failed result.
        let result : AgentResult Out := ⟨AgentStatus.failed, none, [e]⟩
        ⟨⟨AgentStatus.failed, a.execution_history ++ [result]⟩, result, 1⟩

/-! ## Claims C1 and C2 -/

/-- Claim C1: for every agent, context and core logic, `execute` returns
exactly one structured result by a three-way case split: invalid inputs
give a Failed result carrying the validation errors with the core logic
never invoked (core-call counter 0); a fault raised by the core logic is
caught and gives a Failed result whose errors are the one-element list
of the fault's message; a normal return gives a Success result with that
return value as output. -/
theorem C1_execute_three_way_split {Ctx Out : Type} (a : AgentState Out)
    (validate_inputs : Ctx → ValidationResult)
    (core : Ctx → Except String Out) (context : Ctx) :
    ((validate_inputs context).is_valid = false →
      (BaseAgent.execute a validate_inputs core context).result =
        ⟨AgentStatus.failed, none, (validate_inputs context).errors⟩ ∧
      (BaseAgent.execute a validate_inputs core context).coreCalls = 0) ∧
    (∀ e : String, (validate_inputs context).is_valid = true →
      core context = Except.error e →
      (BaseAgent.execute a validate_inputs core context).result =
        ⟨AgentStatus.failed, none, [e]⟩) ∧
    (∀ output : Out, (validate_inputs context).is_valid = true →
      core context = Except.ok output →
      (BaseAgent.execute a validate_inputs core context).result =
        ⟨AgentStatus.success, some output, []⟩) := by
  refine ⟨fun hv => ?_, fun e hv hc => ?_, fun output hv hc => ?_⟩
  · simp [BaseAgent.execute, hv]
  · simp [BaseAgent.execute, hv, hc]
  · simp [BaseAgent.execute, hv, hc]

/-- Witness for C1 at concrete inputs: a validator that rejects, a
validator that accepts with a faulting core, and one with a normal
core. -/
theorem C1_execute_three_way_split_witness :
    (BaseAgent.execute ⟨AgentStatus.idle, []⟩
        (fun _ : Unit => ⟨false, ["missing field"]⟩) (fun _ => Except.ok 7) ()).result =
      ⟨AgentStatus.failed, none, ["missing field"]⟩ ∧
    (BaseAgent.execute ⟨AgentStatus.idle, []⟩
        (fun _ : Unit => ⟨true, []⟩) (fun _ => (Except.error "boom" : Except String Nat)) ()).result =
      ⟨AgentStatus.failed, none, ["boom"]⟩ ∧
    (BaseAgent.execute ⟨AgentStatus.idle, []⟩
        (fun _ : Unit => ⟨true, []⟩) (fun _ => Except.ok 7) ()).result =
      ⟨AgentStatus.success, some 7, []⟩ := by
  refine ⟨?_, ?_, ?_⟩
  · exact ((C1_execute_three_way_split ⟨AgentStatus.idle, []⟩
      (fun _ : Unit => ⟨false, ["missing field"]⟩) (fun _ => Except.ok 7) ()).1 rfl).1
  · exact (C1_execute_three_way_split ⟨AgentStatus.idle, []⟩
      (fun _ : Unit => ⟨true, []⟩)
      (fun _ => (Except.error "boom" : Except String Nat)) ()).2.1 "boom" rfl rfl
  · exact (C1_execute_three_way_split ⟨AgentStatus.idle, []⟩
      (fun _ : Unit => ⟨true, []⟩) (fun _ => Except.ok 7) ()).2.2 7 rfl rfl

/-- Claim C2: a single `execute` call appends exactly one result to
`execution_history`, whatever the outcome: the history length grows by
exactly one. -/
theorem C2_history_grows_by_one {Ctx Out : Type} (a : AgentState Out)
    (validate_inputs : Ctx → ValidationResult)
    (core : Ctx → Except String Out) (context : Ctx) :
    (BaseAgent.execute a validate_inputs core context).agent.execution_history.length =
      a.execution_history.length + 1 := by
  unfold BaseAgent.execute
  rcases h : (validate_inputs context).is_valid with _ | _
  · simp [h]
  · rcases core context with e | o <;> simp [h]

/-! ## Data pipeline crew (`src/agents/crews/data_pipeline_crew.py`)

The crew's agents are modelled as oracles `I → AgentResult O` giving the
`AgentResult` their `execute` call would return; `kickoff` is generic in
the context-entry and output types, since it only inspects
`result.is_success()` (the quality score is read there only for
logging). Ghost call counters record how often each agent is invoked. -/

/-- A crew context: the three optional task keys of the `context` dict
passed to `DataPipelineCrew.kickoff`. -/
structure CrewContext (I T Q : Type) : Type where
  ingestion : Option I
  transformation : Option T
  quality : Option Q

/-- The dict returned by `DataPipelineCrew.kickoff`: `status`, the
per-task `results` entries (absent task keys stay `none`), and the
optional `failed_at` key. -/
structure CrewReport (O1 O2 O3 : Type) : Type where
  status : String
  resIngestion : Option (AgentResult O1)
  resTransformation : Option (AgentResult O2)
  resQuality : Option (AgentResult O3)
  failed_at : Option String
deriving DecidableEq, Repr

/-- Report plus ghost invocation counters for the three agents. -/
structure KickoffOutcome (O1 O2 O3 : Type) : Type where
  report : CrewReport O1 O2 O3
  ingCalls : Nat
  trCalls : Nat
  quCalls : Nat
deriving DecidableEq, Repr

/-- Task 3 of `kickoff` (lines 100–117): run the quality agent when the
`quality` key is present; on a non-Success result return the failed
report with `failed_at = "quality"`, otherwise the success report.
(`output.get('overall_score', 0)` is read there only for a log line and
is not a gate in this crew.) -/
def kickoffQualityStage {Q O1 O2 O3 : Type} (quAgent : Q → AgentResult O3)
    (qctx : Option Q) (r1 : Option (AgentResult O1))
    (r2 : Option (AgentResult O2)) : CrewReport O1 O2 O3 × Nat :=
  match qctx with
  | none => (⟨"success", r1, r2, none, none⟩, 0)
  | some q =>
    let r3 := quAgent q
    if r3.is_success then (⟨"success", r1, r2, some r3, none⟩, 1)
    else (⟨"failed", r1, r2, some r3, some "quality"⟩, 1)

/-- Task 2 of `kickoff` (lines 87–97): run the transformation agent when
the `transformation` key is present, aborting with
`failed_at = "transformation"` on a non-Success result. -/
def kickoffTransformationStage {T Q O1 O2 O3 : Type}
    (trAgent : T → AgentResult O2) (quAgent : Q → AgentResult O3)
    (tctx : Option T) (qctx : Option Q) (r1 : Option (AgentResult O1)) :
    CrewReport O1 O2 O3 × Nat × Nat :=
  match tctx with
  | none =>
    let s := kickoffQualityStage quAgent qctx r1 none
    (s.1, 0, s.2)
  | some t =>
    let r2 := trAgent t
    if r2.is_success then
      let s := kickoffQualityStage quAgent qctx r1 (some r2)
      (s.1, 1, s.2)
    else (⟨"failed", r1, some r2, none, some "transformation"⟩, 1, 0)

/-- `DataPipelineCrew.kickoff` from `data_pipeline_crew.py`
(lines 42–117): ingestion, then transformation, then quality, each task
skipped when its key is absent from the context, stopping with a failed
report at the first non-Success result. -/
def DataPipelineCrew.kickoff {I T Q O1 O2 O3 : Type}
    (ingAgent : I → AgentResult O1) (trAgent : T → AgentResult O2)
    (quAgent : Q → AgentResult O3) (context : CrewContext I T Q) :
    KickoffOutcome O1 O2 O3 :=
  match context.ingestion with
  | none =>
    let s := kickoffTransformationStage trAgent quAgent
      context.transformation context.quality none
    ⟨s.1, 0, s.2.1, s.2.2⟩
  | some i =>
    let r1 := ingAgent i
    if r1.is_success then
      let s := kickoffTransformationStage trAgent quAgent
        context.transformation context.quality (some r1)
      ⟨s.1, 1, s.2.1, s.2.2⟩
    else ⟨⟨"failed", some r1, none, none, some "ingestion"⟩, 1, 0, 0⟩

/-! ## Claim C3 -/

/-- Claim C3: with all three task keys present, a non-Success result
stops `kickoff` immediately — no later agent is invoked, the report
status is `"failed"` and `failed_at` names the failing task; in
particular a Failed ingestion leaves the transformation and quality
call counters at zero with `failed_at = "ingestion"`. -/
theorem C3_crew_fail_fast {I T Q O1 O2 O3 : Type}
    (ingAgent : I → AgentResult O1) (trAgent : T → AgentResult O2)
    (quAgent : Q → AgentResult O3) (i : I) (t : T) (q : Q) :
    ((ingAgent i).is_success = false →
      DataPipelineCrew.kickoff ingAgent trAgent quAgent ⟨some i, some t, some q⟩ =
        ⟨⟨"failed", some (ingAgent i), none, none, some "ingestion"⟩, 1, 0, 0⟩) ∧
    ((ingAgent i).is_success = true → (trAgent t).is_success = false →
      DataPipelineCrew.kickoff ingAgent trAgent quAgent ⟨some i, some t, some q⟩ =
        ⟨⟨"failed", some (ingAgent i), some (trAgent t), none,
          some "transformation"⟩, 1, 1, 0⟩) ∧
    ((ingAgent i).is_success = true → (trAgent t).is_success = true →
      (quAgent q).is_success = false →
      DataPipelineCrew.kickoff ingAgent trAgent quAgent ⟨some i, some t, some q⟩ =
        ⟨⟨"failed", some (ingAgent i), some (trAgent t), some (quAgent q),
          some "quality"⟩, 1, 1, 1⟩) := by
  refine ⟨fun h1 => ?_, fun h1 h2 => ?_, fun h1 h2 h3 => ?_⟩ <;>
    simp [DataPipelineCrew.kickoff, kickoffTransformationStage,
      kickoffQualityStage, *]

/-- Witness for C3: a concrete crew whose ingestion agent fails; the
transformation and quality agents are never invoked. -/
theorem C3_crew_fail_fast_witness :
    DataPipelineCrew.kickoff (I := Unit) (T := Unit) (Q := Unit)
        (fun _ => (⟨AgentStatus.failed, none, ["ingest error"]⟩ : AgentResult Nat))
        (fun _ => (⟨AgentStatus.success, some 1, []⟩ : AgentResult Nat))
        (fun _ => (⟨AgentStatus.success, some 2, []⟩ : AgentResult Nat))
        ⟨some (), some (), some ()⟩ =
      ⟨⟨"failed", some ⟨AgentStatus.failed, none, ["ingest error"]⟩, none, none,
        some "ingestion"⟩, 1, 0, 0⟩ :=
  (C3_crew_fail_fast
    (fun _ => (⟨AgentStatus.failed, none, ["ingest error"]⟩ : AgentResult Nat))
    (fun _ => (⟨AgentStatus.success, some 1, []⟩ : AgentResult Nat))
    (fun _ => (⟨AgentStatus.success, some 2, []⟩ : AgentResult Nat))
    () () ()).1 rfl

/-! ## Example crew (`src/agents/examples/example_data_pipeline_crew.py`)

The example crew's `kickoff` re-checks a successful quality result
against a 0.90 threshold. Its failure dict is built by
`_failure_result(reason, ...)` and carries `status`, `reason` and
`results` — it has no `failed_at` key. Scores are embedded as rationals
(the decimal literals 0.90, 0.85, … compare identically). -/

/-- The quality agent's output dict, as far as the crews read it:
`overall_score`. -/
structure QualityOutput : Type where
  overall_score : ℚ
deriving DecidableEq, Repr

/-- The dict returned by the example crew's `kickoff`: built by
`_success_result` / `_failure_result`; the failure variant carries a
`reason` string and, unlike the canonical crew, no `failed_at` key.
(`execution_time_seconds` and `timestamp` are not modelled.) -/
structure ExampleCrewReport (O1 O2 : Type) : Type where
  status : String
  reason : Option String
  resIngestion : Option (AgentResult O1)
  resTransformation : Option (AgentResult O2)
  resQuality : Option (AgentResult QualityOutput)
deriving DecidableEq, Repr

/-- Task 3 of the example `kickoff` (lines 256–281): on quality success,
read `output['overall_score']` and fail the pipeline when it is below
0.90. A success result with no output would raise a `TypeError` at that
read, caught by the surrounding `except` into the generic
"Unexpected error" failure dict. -/
def exampleKickoffQualityStage {Q O1 O2 : Type}
    (quAgent : Q → AgentResult QualityOutput) (qctx : Option Q)
    (r1 : Option (AgentResult O1)) (r2 : Option (AgentResult O2)) :
    ExampleCrewReport O1 O2 :=
  match qctx with
  | none => ⟨"success", none, r1, r2, none⟩
  | some q =>
    let r3 := quAgent q
    if r3.is_success then
      match r3.output with
      | none => ⟨"failed", some "Unexpected error", r1, r2, some r3⟩
      | some o =>
        if o.overall_score < 9 / 10 then
          ⟨"failed", some "Quality score too low", r1, r2, some r3⟩
        else ⟨"success", none, r1, r2, some r3⟩
    else ⟨"failed", some "Quality validation failed", r1, r2, some r3⟩

/-- Task 2 of the example `kickoff` (lines 234–253). -/
def exampleKickoffTransformationStage {T Q O1 O2 : Type}
    (trAgent : T → AgentResult O2) (quAgent : Q → AgentResult QualityOutput)
    (tctx : Option T) (qctx : Option Q) (r1 : Option (AgentResult O1)) :
    ExampleCrewReport O1 O2 :=
  match tctx with
  | none => exampleKickoffQualityStage quAgent qctx r1 none
  | some t =>
    let r2 := trAgent t
    if r2.is_success then exampleKickoffQualityStage quAgent qctx r1 (some r2)
    else ⟨"failed", some "Transformation failed", r1, some r2, none⟩

/-- The example crew's `kickoff` (lines 195–292 of
`example_data_pipeline_crew.py`). -/
def exampleCrewKickoff {I T Q O1 O2 : Type} (ingAgent : I → AgentResult O1)
    (trAgent : T → AgentResult O2) (quAgent : Q → AgentResult QualityOutput)
    (context : CrewContext I T Q) : ExampleCrewReport O1 O2 :=
  match context.ingestion with
  | none => exampleKickoffTransformationStage trAgent quAgent
      context.transformation context.quality none
  | some i =>
    let r1 := ingAgent i
    if r1.is_success then
      exampleKickoffTransformationStage trAgent quAgent
        context.transformation context.quality (some r1)
    else ⟨"failed", some "Data ingestion failed", some r1, none, none⟩

/-! ## Claim C4 -/

/-- Counterexample to claim C4: in the crew of
`src/agents/crews/data_pipeline_crew.py` a quality execution that
succeeds with overall score 0.85 — below the claimed 0.90 threshold —
yields a `kickoff` report with status `"success"` and no `failed_at`,
not the claimed failed report. -/
theorem C4_counterexample :
    (85 / 100 : ℚ) < 9 / 10 ∧
    DataPipelineCrew.kickoff (I := Unit) (T := Unit) (Q := Unit)
        (fun _ => (⟨AgentStatus.success, some 1, []⟩ : AgentResult Nat))
        (fun _ => (⟨AgentStatus.success, some 2, []⟩ : AgentResult Nat))
        (fun _ => (⟨AgentStatus.success, some ⟨85 / 100⟩, []⟩ :
          AgentResult QualityOutput))
        ⟨some (), some (), some ()⟩ =
      ⟨⟨"success", some ⟨AgentStatus.success, some 1, []⟩,
        some ⟨AgentStatus.success, some 2, []⟩,
        some ⟨AgentStatus.success, some ⟨85 / 100⟩, []⟩, none⟩, 1, 1, 1⟩ := by
  constructor
  · norm_num
  · simp [DataPipelineCrew.kickoff, kickoffTransformationStage,
      kickoffQualityStage, AgentResult.is_success]

/-- Claim C4 as amended: the canonical crew applies no quality-score
threshold (a successful quality result below 0.90 still yields status
`"success"`, see the counterexample); only the example crew's `kickoff`
fails the pipeline on a sub-threshold score, and it does so with status
`"failed"` and the reason string `"Quality score too low"` — its failure
report has no `failed_at` field at all. -/
theorem C4_amended_example_crew_threshold {I T Q O1 O2 : Type}
    (ingAgent : I → AgentResult O1) (trAgent : T → AgentResult O2)
    (quAgent : Q → AgentResult QualityOutput) (i : I) (t : T) (q : Q)
    (o : QualityOutput)
    (hing : (ingAgent i).is_success = true)
    (htr : (trAgent t).is_success = true)
    (hqu : quAgent q = ⟨AgentStatus.success, some o, []⟩)
    (hscore : o.overall_score < 9 / 10) :
    exampleCrewKickoff ingAgent trAgent quAgent ⟨some i, some t, some q⟩ =
      ⟨"failed", some "Quality score too low", some (ingAgent i),
        some (trAgent t), some (quAgent q)⟩ := by
  have h1 : (ingAgent i).status = AgentStatus.success := by
    simpa [AgentResult.is_success] using hing
  have h2 : (trAgent t).status = AgentStatus.success := by
    simpa [AgentResult.is_success] using htr
  simp [exampleCrewKickoff, exampleKickoffTransformationStage,
    exampleKickoffQualityStage, hqu, hscore, AgentResult.is_success, h1, h2]

/-- Witness for the amended C4 at a concrete quality score of 0.85. -/
theorem C4_amended_example_crew_threshold_witness :
    exampleCrewKickoff (I := Unit) (T := Unit) (Q := Unit)
        (fun _ => (⟨AgentStatus.success, some 1, []⟩ : AgentResult Nat))
        (fun _ => (⟨AgentStatus.success, some 2, []⟩ : AgentResult Nat))
        (fun _ => (⟨AgentStatus.success, some ⟨85 / 100⟩, []⟩ :
          AgentResult QualityOutput))
        ⟨some (), some (), some ()⟩ =
      ⟨"failed", some "Quality score too low",
        some ⟨AgentStatus.success, some 1, []⟩,
        some ⟨AgentStatus.success, some 2, []⟩,
        some ⟨AgentStatus.success, some ⟨85 / 100⟩, []⟩⟩ :=
  C4_amended_example_crew_threshold
    (fun _ => (⟨AgentStatus.success, some 1, []⟩ : AgentResult Nat))
    (fun _ => (⟨AgentStatus.success, some 2, []⟩ : AgentResult Nat))
    (fun _ => (⟨AgentStatus.success, some ⟨85 / 100⟩, []⟩ :
      AgentResult QualityOutput))
    () () () ⟨85 / 100⟩ rfl rfl rfl (by norm_num)

/-! ## Workflow orchestrator (`src/agents/examples/example_orchestrator.py`)

`execute_workflow` runs the three crews in order with a decision gate
after the first two. The crews' results are modelled as oracles: a
`CrewStatus` plus the named numeric output field each gate reads
(`output.get('quality_score', 0)` resp. `output.get('auroc', 0)`, the
`.get` default embedded via `Option.getD 0`). -/

/-- `CrewStatus` enum from `example_orchestrator.py`. -/
inductive CrewStatus : Type
  | pending
  | running
  | success
  | failed
  | skipped
deriving DecidableEq, Repr

/-- The observable outcome of `execute_workflow`: the summary's
`workflow_status` plus ghost flags recording whether the ML-development
and deployment crews were invoked (the data-pipeline crew always is). -/
structure WorkflowOutcome : Type where
  workflow_status : String
  mlInvoked : Bool
  depInvoked : Bool
deriving DecidableEq, Repr

/-- `WorkflowOrchestrator.execute_workflow` from `example_orchestrator.py`
(lines 93–168): run the data-pipeline crew; abort as `"failed"` if it is
not successful; stop as `"partial_success"` when its `quality_score`
(default 0) is below 0.90; likewise for the ML crew and its `auroc`
against 0.80; a failed deployment makes the workflow `"failed"`,
otherwise `"success"`. -/
def WorkflowOrchestrator.execute_workflow (dpStatus : CrewStatus)
    (dpQualityScore : Option ℚ) (mlStatus : CrewStatus)
    (mlAuroc : Option ℚ) (depStatus : CrewStatus) : WorkflowOutcome :=
  if dpStatus ≠ CrewStatus.success then ⟨"failed", false, false⟩
  else if dpQualityScore.getD 0 < 9 / 10 then ⟨"partial_success", false, false⟩
  else if mlStatus ≠ CrewStatus.success then ⟨"failed", true, false⟩
  else if mlAuroc.getD 0 < 8 / 10 then ⟨"partial_success", true, false⟩
  else if depStatus ≠ CrewStatus.success then ⟨"failed", true, true⟩
  else ⟨"success", true, true⟩

/-! ## Claim C7 -/

/-- Claim C7: when the data-pipeline crew succeeds but its quality score
is below 0.90, the workflow stops with `"partial_success"` and the
ML-development and deployment crews are never invoked; and whenever an
executed crew's status is not success, the workflow status is
`"failed"`. -/
theorem C7_orchestrator_gate (dpStatus : CrewStatus)
    (dpQualityScore : Option ℚ) (mlStatus : CrewStatus)
    (mlAuroc : Option ℚ) (depStatus : CrewStatus) :
    (dpStatus = CrewStatus.success → dpQualityScore.getD 0 < 9 / 10 →
      WorkflowOrchestrator.execute_workflow dpStatus dpQualityScore mlStatus
          mlAuroc depStatus = ⟨"partial_success", false, false⟩) ∧
    (dpStatus ≠ CrewStatus.success →
      (WorkflowOrchestrator.execute_workflow dpStatus dpQualityScore mlStatus
          mlAuroc depStatus).workflow_status = "failed") ∧
    (dpStatus = CrewStatus.success → ¬ dpQualityScore.getD 0 < 9 / 10 →
      mlStatus ≠ CrewStatus.success →
      (WorkflowOrchestrator.execute_workflow dpStatus dpQualityScore mlStatus
          mlAuroc depStatus).workflow_status = "failed") ∧
    (dpStatus = CrewStatus.success → ¬ dpQualityScore.getD 0 < 9 / 10 →
      mlStatus = CrewStatus.success → ¬ mlAuroc.getD 0 < 8 / 10 →
      depStatus ≠ CrewStatus.success →
      (WorkflowOrchestrator.execute_workflow dpStatus dpQualityScore mlStatus
          mlAuroc depStatus).workflow_status = "failed") := by
  refine ⟨fun h1 h2 => ?_, fun h1 => ?_, fun h1 h2 h3 => ?_,
    fun h1 h2 h3 h4 h5 => ?_⟩ <;>
    simp [WorkflowOrchestrator.execute_workflow, *]

/-- Witness for C7: a data-pipeline crew returning success with
`quality_score = 0.85` yields `"partial_success"` with neither
downstream crew invoked. -/
theorem C7_orchestrator_gate_witness :
    WorkflowOrchestrator.execute_workflow CrewStatus.success
        (some (85 / 100)) CrewStatus.success (some (89 / 100))
        CrewStatus.success = ⟨"partial_success", false, false⟩ :=
  (C7_orchestrator_gate CrewStatus.success (some (85 / 100))
    CrewStatus.success (some (89 / 100)) CrewStatus.success).1 rfl
    (by norm_num)

/-! ## Checkpointed batch ingestion (`src/agents/roles/data_engineer.py`)

`DataIngestionAgent._execute` (lines 73–146) reads the source with
`pd.read_csv(source_file, chunksize=batch_size,
skiprows=range(1, start_row + 1))`: the first `start_row` data rows
(not the header) are skipped and the rest is delivered in chunks of
`batch_size` rows. The CSV reader is an external collaborator; it is
embedded as `List.drop start_row` followed by `csvChunks batch_size`
over the list of data rows. Each chunk is inserted; on success
`rows_ingested` grows by the chunk length and, when a checkpoint file is
configured, `{'last_row': start_row + rows_ingested}` is persisted; on
failure `rows_failed` grows by the chunk length and the loop continues.

`csvChunks` is implemented with a fuel argument (`rows.length` suffices,
as every step consumes at least one row) so that it is structurally
recursive and kernel-evaluable on concrete inputs. -/

/-- Chunking worker: split `rows` into consecutive chunks of `bs` rows,
with `fuel` bounding the recursion depth. -/
def csvChunksAux {α : Type} (bs : Nat) : Nat → List α → List (List α)
  | _, [] => []
  | 0, _ :: _ => []
  | fuel + 1, r :: rs =>
      List.take bs (r :: rs) :: csvChunksAux bs fuel (List.drop bs (r :: rs))

/-- The chunk stream `pd.read_csv(..., chunksize=bs)` yields on a list of
data rows (`bs = 0` is rejected by pandas; it is mapped to no chunks). -/
def csvChunks {α : Type} (bs : Nat) (rows : List α) : List (List α) :=
  if bs = 0 then [] else csvChunksAux bs rows.length rows

theorem csvChunksAux_nil {α : Type} (bs fuel : Nat) :
    csvChunksAux (α := α) bs fuel [] = [] := by
  cases fuel <;> rfl

theorem csvChunksAux_congr {α : Type} {bs : Nat} (hbs : 0 < bs) :
    ∀ (fuel fuel' : Nat) (rows : List α), rows.length ≤ fuel →
      rows.length ≤ fuel' → csvChunksAux bs fuel rows = csvChunksAux bs fuel' rows := by
  intro fuel
  induction fuel with
  | zero =>
    intro fuel' rows h _
    have : rows = [] := List.eq_nil_of_length_eq_zero (Nat.le_zero.mp h)
    subst this
    simp [csvChunksAux_nil]
  | succ f ih =>
    intro fuel' rows h h'
    cases rows with
    | nil => simp [csvChunksAux_nil]
    | cons r rs =>
      cases fuel' with
      | zero => simp at h'
      | succ f' =>
        show List.take bs (r :: rs) :: csvChunksAux bs f (List.drop bs (r :: rs)) =
          List.take bs (r :: rs) :: csvChunksAux bs f' (List.drop bs (r :: rs))
        have hlen : (List.drop bs (r :: rs)).length = (r :: rs).length - bs := by
          simp
        have hle : (List.drop bs (r :: rs)).length ≤ f := by
          rw [hlen]
          simp only [List.length_cons] at h ⊢
          omega
        have hle' : (List.drop bs (r :: rs)).length ≤ f' := by
          rw [hlen]
          simp only [List.length_cons] at h' ⊢
          omega
        rw [ih f' _ hle hle']

theorem csvChunks_nil {α : Type} (bs : Nat) : csvChunks (α := α) bs [] = [] := by
  simp [csvChunks, csvChunksAux_nil]

/-- One unfolding step of the chunk stream. -/
theorem csvChunks_cons {α : Type} {bs : Nat} (hbs : 0 < bs) (rows : List α)
    (hne : rows ≠ []) :
    csvChunks bs rows = rows.take bs :: csvChunks bs (rows.drop bs) := by
  cases rows with
  | nil => exact absurd rfl hne
  | cons r rs =>
    have hbs' : bs ≠ 0 := Nat.pos_iff_ne_zero.mp hbs
    show csvChunks bs (r :: rs) = _
    unfold csvChunks
    rw [if_neg hbs', if_neg hbs']
    show List.take bs (r :: rs) :: csvChunksAux bs rs.length (List.drop bs (r :: rs)) = _
    have hlen : (List.drop bs (r :: rs)).length = (r :: rs).length - bs := by simp
    have h1 : (List.drop bs (r :: rs)).length ≤ rs.length := by
      rw [hlen]; simp only [List.length_cons]; omega
    rw [csvChunksAux_congr hbs rs.length (List.drop bs (r :: rs)).length _ h1 le_rfl]

/-- The chunks concatenate back to the chunked list. -/
theorem csvChunks_join {α : Type} {bs : Nat} (hbs : 0 < bs) (rows : List α) :
    (csvChunks bs rows).flatten = rows := by
  generalize hn : rows.length = n
  induction n using Nat.strong_induction_on generalizing rows with
  | _ n ih =>
    cases rows with
    | nil => simp [csvChunks_nil]
    | cons r rs =>
      rw [csvChunks_cons hbs _ (by simp)]
      rw [List.flatten_cons]
      have hlt : (List.drop bs (r :: rs)).length < n := by
        rw [← hn]
        simp only [List.length_drop, List.length_cons]
        omega
      rw [ih _ hlt _ rfl]
      exact List.take_append_drop bs (r :: rs)

/-- The chunk-length profile depends only on the length of the chunked
list, not on its entries (or even its element type). -/
theorem csvChunksAux_map_length_congr {α β : Type} (bs : Nat) :
    ∀ (fuel : Nat) (xs : List α) (ys : List β), xs.length = ys.length →
      (csvChunksAux bs fuel xs).map List.length =
        (csvChunksAux bs fuel ys).map List.length := by
  intro fuel
  induction fuel with
  | zero =>
    intro xs ys h
    cases xs <;> cases ys <;> simp_all [csvChunksAux_nil, csvChunksAux]
  | succ f ih =>
    intro xs ys h
    cases xs with
    | nil =>
      have : ys = [] := List.eq_nil_of_length_eq_zero (by simpa using h.symm)
      subst this
      simp [csvChunksAux_nil]
    | cons x xs' =>
      cases ys with
      | nil => simp at h
      | cons y ys' =>
        show (List.take bs (x :: xs') :: csvChunksAux bs f (List.drop bs (x :: xs'))).map _ =
          (List.take bs (y :: ys') :: csvChunksAux bs f (List.drop bs (y :: ys'))).map _
        simp only [List.map_cons, List.length_take, List.cons.injEq]
        exact ⟨by rw [h], ih _ _ (by simp only [List.length_drop, h])⟩

theorem csvChunks_map_length_congr {α β : Type} (bs : Nat) (xs : List α)
    (ys : List β) (h : xs.length = ys.length) :
    (csvChunks bs xs).map List.length = (csvChunks bs ys).map List.length := by
  unfold csvChunks
  by_cases hbs : bs = 0
  · simp [hbs]
  · rw [if_neg hbs, if_neg hbs, h]
    exact csvChunksAux_map_length_congr bs ys.length xs ys h

/-- Observable state of one ingestion run: the `rows_ingested` and
`rows_failed` counters, a ghost count of batch-insert attempts, the
successive `last_row` values persisted to the checkpoint file
(`ckTrace`, empty when no checkpoint file is configured), and the rows
actually committed to the destination table. -/
structure IngestState (α : Type) : Type where
  rowsIngested : Nat
  rowsFailed : Nat
  attempted : Nat
  ckTrace : List Nat
  committed : List α
deriving DecidableEq, Repr

/-- State at the top of the batch loop. -/
def initIngest {α : Type} : IngestState α := ⟨0, 0, 0, [], []⟩

/-- One iteration of the batch loop in `_execute` (lines 111–133):
`insOk` is the outcome of `insert_dataframe` for this chunk (a raised
fault is caught by the `except` branch). On success the chunk's rows are
committed, `rows_ingested` grows by the chunk length and — when a
checkpoint file is configured — `last_row = start_row + rows_ingested`
is persisted; on failure `rows_failed` grows by the chunk length and
the loop continues. -/
def ingestBatch {α : Type} (hasCk : Bool) (startRow : Nat)
    (st : IngestState α) (batch : List α) (insOk : Bool) : IngestState α :=
  if insOk then
    { rowsIngested := st.rowsIngested + batch.length
      rowsFailed := st.rowsFailed
      attempted := st.attempted + 1
      ckTrace :=
        if hasCk then st.ckTrace ++ [startRow + (st.rowsIngested + batch.length)]
        else st.ckTrace
      committed := st.committed ++ batch }
  else
    { st with
      rowsFailed := st.rowsFailed + batch.length
      attempted := st.attempted + 1 }

/-- The batch loop over the chunk stream; `insertOk i` is the insert
outcome for the `i`-th chunk. -/
def ingestLoop {α : Type} (hasCk : Bool) (startRow : Nat)
    (insertOk : Nat → Bool) : List (List α) → Nat → IngestState α → IngestState α
  | [], _, st => st
  | b :: bsl, i, st =>
      ingestLoop hasCk startRow insertOk bsl (i + 1)
        (ingestBatch hasCk startRow st b (insertOk i))

/-- A full ingestion run of `DataIngestionAgent._execute`: resume at
`startRow` (`checkpoint['last_row']`, or `0` without a prior
checkpoint), chunk the remaining data rows by `bs`, and fold the batch
loop. -/
def ingestRun {α : Type} (hasCk : Bool) (startRow bs : Nat) (rows : List α)
    (insertOk : Nat → Bool) : IngestState α :=
  ingestLoop hasCk startRow insertOk (csvChunks bs (rows.drop startRow)) 0 initIngest

/-! Specification functions the loop is proved against. They consume the
chunk-length profile (`okRowsL`, `badRowsL`, `ckWritesL`) or the chunks
themselves (`okJoin`), indexed from the chunk counter `i`. -/

/-- Total length of the chunks whose insert succeeds. -/
def okRowsL (insertOk : Nat → Bool) : List Nat → Nat → Nat
  | [], _ => 0
  | l :: ls, i => (if insertOk i then l else 0) + okRowsL insertOk ls (i + 1)

/-- Total length of the chunks whose insert fails. -/
def badRowsL (insertOk : Nat → Bool) : List Nat → Nat → Nat
  | [], _ => 0
  | l :: ls, i => (if insertOk i then 0 else l) + badRowsL insertOk ls (i + 1)

/-- The `last_row` values persisted by the loop, given the running
`rows_ingested` value `ri` at entry. -/
def ckWritesL (insertOk : Nat → Bool) (startRow : Nat) :
    List Nat → Nat → Nat → List Nat
  | [], _, _ => []
  | l :: ls, i, ri =>
      if insertOk i then
        (startRow + (ri + l)) :: ckWritesL insertOk startRow ls (i + 1) (ri + l)
      else ckWritesL insertOk startRow ls (i + 1) ri

/-- Concatenation of the successfully inserted chunks. -/
def okJoin {α : Type} (insertOk : Nat → Bool) : List (List α) → Nat → List α
  | [], _ => []
  | b :: bsl, i => (if insertOk i then b else []) ++ okJoin insertOk bsl (i + 1)

/-- Full characterisation of the batch loop: counters, checkpoint writes
and committed rows, for any starting state, chunk index and insert
oracle. -/
theorem ingestLoop_spec {α : Type} (hasCk : Bool) (startRow : Nat)
    (insertOk : Nat → Bool) :
    ∀ (chs : List (List α)) (i : Nat) (st : IngestState α),
      ingestLoop hasCk startRow insertOk chs i st =
        ⟨st.rowsIngested + okRowsL insertOk (chs.map List.length) i,
         st.rowsFailed + badRowsL insertOk (chs.map List.length) i,
         st.attempted + chs.length,
         st.ckTrace ++ (if hasCk then
           ckWritesL insertOk startRow (chs.map List.length) i st.rowsIngested
           else []),
         st.committed ++ okJoin insertOk chs i⟩ := by
  intro chs
  induction chs with
  | nil =>
    intro i st
    simp [ingestLoop, okRowsL, badRowsL, ckWritesL, okJoin]
  | cons b bsl ih =>
    intro i st
    show ingestLoop hasCk startRow insertOk bsl (i + 1)
      (ingestBatch hasCk startRow st b (insertOk i)) = _
    rw [ih]
    rcases hok : insertOk i with _ | _
    · simp [ingestBatch, hok, okRowsL, badRowsL, ckWritesL, okJoin,
        List.map_cons, Nat.add_assoc]
      omega
    · rcases hck : hasCk with _ | _ <;>
        simp [ingestBatch, hok, hck, okRowsL, badRowsL, ckWritesL, okJoin,
          List.map_cons, Nat.add_assoc] <;> omega

theorem okRowsL_add_badRowsL (insertOk : Nat → Bool) :
    ∀ (lens : List Nat) (i : Nat),
      okRowsL insertOk lens i + badRowsL insertOk lens i = lens.sum := by
  intro lens
  induction lens with
  | nil => intro i; simp [okRowsL, badRowsL]
  | cons l ls ih =>
    intro i
    rcases h : insertOk i with _ | _ <;>
      simp [okRowsL, badRowsL, h, List.sum_cons, ← ih (i + 1)] <;> omega

theorem okRowsL_true : ∀ (lens : List Nat) (i : Nat),
    okRowsL (fun _ => true) lens i = lens.sum := by
  intro lens
  induction lens with
  | nil => intro i; simp [okRowsL]
  | cons l ls ih => intro i; simp [okRowsL, ih (i + 1)]

theorem okJoin_true {α : Type} : ∀ (chs : List (List α)) (i : Nat),
    okJoin (fun _ => true) chs i = chs.flatten := by
  intro chs
  induction chs with
  | nil => intro i; simp [okJoin]
  | cons b bsl ih => intro i; simp [okJoin, ih (i + 1), List.flatten_cons]

/-- The chunk-length profile sums to the length of the chunked list. -/
theorem csvChunks_sum_lengths {α : Type} {bs : Nat} (hbs : 0 < bs)
    (rows : List α) : ((csvChunks bs rows).map List.length).sum = rows.length := by
  have h := csvChunks_join hbs rows
  calc ((csvChunks bs rows).map List.length).sum
      = (csvChunks bs rows).flatten.length := (List.length_flatten _).symm
    _ = rows.length := by rw [h]

/-- Every persisted `last_row` value lies between `startRow + ri` and
`startRow + ri` plus the rows ingested over the remaining chunks. -/
theorem ckWritesL_bounds (insertOk : Nat → Bool) (startRow : Nat) :
    ∀ (lens : List Nat) (i ri : Nat),
      ∀ x ∈ ckWritesL insertOk startRow lens i ri,
        startRow + ri ≤ x ∧ x ≤ startRow + ri + okRowsL insertOk lens i := by
  intro lens
  induction lens with
  | nil => intro i ri x hx; simp [ckWritesL] at hx
  | cons l ls ih =>
    intro i ri x hx
    rcases h : insertOk i with _ | _
    · rw [ckWritesL, if_neg (by simp [h])] at hx
      have := ih (i + 1) ri x hx
      simp only [okRowsL, h, if_false]
      omega
    · rw [ckWritesL, if_pos (by simp [h])] at hx
      rcases List.mem_cons.mp hx with hx | hx
      · subst hx
        simp only [okRowsL, h, if_true]
        omega
      · have := ih (i + 1) (ri + l) x hx
        simp only [okRowsL, h, if_true]
        omega

/-- The persisted checkpoint values are monotonically non-decreasing. -/
theorem ckWritesL_chain (insertOk : Nat → Bool) (startRow : Nat) :
    ∀ (lens : List Nat) (i ri : Nat),
      List.Chain' (· ≤ ·) (ckWritesL insertOk startRow lens i ri) := by
  intro lens
  induction lens with
  | nil => intro i ri; simp [ckWritesL]
  | cons l ls ih =>
    intro i ri
    rcases h : insertOk i with _ | _
    · rw [ckWritesL, if_neg (by simp [h])]
      exact ih (i + 1) ri
    · rw [ckWritesL, if_pos (by simp [h])]
      refine List.chain'_cons'.mpr ⟨?_, ih (i + 1) (ri + l)⟩
      intro y hy
      have hmem : y ∈ ckWritesL insertOk startRow ls (i + 1) (ri + l) :=
        List.mem_of_mem_head? hy
      exact (ckWritesL_bounds insertOk startRow ls (i + 1) (ri + l) y hmem).1

theorem getLast?_isSome_cons (b : Nat) (l : List Nat) :
    ∃ x, (b :: l).getLast? = some x := by
  induction l generalizing b with
  | nil => exact ⟨b, rfl⟩
  | cons c l ih =>
    rw [List.getLast?_cons_cons]
    exact ih c

theorem getLast?_getD_cons (a d : Nat) (l : List Nat) :
    ((a :: l).getLast?).getD d = (l.getLast?).getD a := by
  cases l with
  | nil => rfl
  | cons b l =>
    rw [List.getLast?_cons_cons]
    obtain ⟨x, hx⟩ := getLast?_isSome_cons b l
    rw [hx]
    rfl

/-- With every insert succeeding, the last persisted checkpoint is the
resume offset plus all rows of the remaining chunks (or the default when
there is no chunk). -/
theorem ckWritesL_true_getLast (startRow : Nat) :
    ∀ (lens : List Nat) (i ri : Nat),
      ((ckWritesL (fun _ => true) startRow lens i ri).getLast?).getD
          (startRow + ri) = startRow + (ri + lens.sum) := by
  intro lens
  induction lens with
  | nil => intro i ri; simp [ckWritesL]
  | cons l ls ih =>
    intro i ri
    rw [ckWritesL, if_pos rfl, getLast?_getD_cons, ih (i + 1) (ri + l)]
    simp [List.sum_cons]
    omega

/-! ## Claim C5 -/

/-- Claim C5: on a 100-data-row source with batch size 30 and no failing
batch, a run with no prior checkpoint produces four batches of sizes
30, 30, 30, 10 and ingests all 100 rows; a run resuming from
`last_row = 50` skips the first 50 data rows, ingests the remaining 50
and leaves the persisted checkpoint at 100; and in every run the
persisted checkpoint values are monotonically non-decreasing and stay
between the resume offset and the offset plus the rows ingested. -/
theorem C5_resume_correctness {α : Type} (rows : List α)
    (h100 : rows.length = 100) :
    ((csvChunks 30 rows).map List.length = [30, 30, 30, 10] ∧
     (ingestRun true 0 30 rows fun _ => true).rowsIngested = 100 ∧
     (ingestRun true 50 30 rows fun _ => true).rowsIngested = 50 ∧
     (ingestRun true 50 30 rows fun _ => true).ckTrace.getLast? = some 100) ∧
    ∀ (hasCk : Bool) (startRow bs : Nat) (insertOk : Nat → Bool),
      List.Chain' (· ≤ ·) (ingestRun hasCk startRow bs rows insertOk).ckTrace ∧
      ∀ x ∈ (ingestRun hasCk startRow bs rows insertOk).ckTrace,
        startRow ≤ x ∧
        x ≤ startRow + (ingestRun hasCk startRow bs rows insertOk).rowsIngested := by
  have hlen0 : (csvChunks 30 rows).map List.length = [30, 30, 30, 10] := by
    rw [csvChunks_map_length_congr 30 rows (List.range 100) (by simp [h100])]
    decide
  have hdrop : (rows.drop 50).length = 50 := by simp [h100]
  have hlen50 : (csvChunks 30 (rows.drop 50)).map List.length = [30, 20] := by
    rw [csvChunks_map_length_congr 30 (rows.drop 50) (List.range 50)
      (by simp [hdrop])]
    decide
  refine ⟨⟨hlen0, ?_, ?_, ?_⟩, ?_⟩
  · rw [ingestRun, List.drop_zero, ingestLoop_spec]
    simp only [initIngest, hlen0]
    decide
  · rw [ingestRun, ingestLoop_spec]
    simp only [initIngest, hlen50]
    decide
  · rw [ingestRun, ingestLoop_spec]
    simp only [initIngest, hlen50]
    decide
  · intro hasCk startRow bs insertOk
    rw [ingestRun, ingestLoop_spec]
    rcases hasCk with _ | _
    · simp [initIngest]
    · simp only [initIngest, if_pos rfl, List.nil_append]
      refine ⟨ckWritesL_chain insertOk startRow _ 0 0, ?_⟩
      intro x hx
      have h := ckWritesL_bounds insertOk startRow _ 0 0 x hx
      omega

/-- Witness for C5 at the concrete source `List.range 100`. -/
theorem C5_resume_correctness_witness :
    (csvChunks 30 (List.range 100)).map List.length = [30, 30, 30, 10] ∧
    (ingestRun true 0 30 (List.range 100) fun _ => true).rowsIngested = 100 ∧
    (ingestRun true 50 30 (List.range 100) fun _ => true).ckTrace.getLast? =
      some 100 := by
  have h := C5_resume_correctness (List.range 100) (by simp)
  exact ⟨h.1.1, h.1.2.1, h.1.2.2.2⟩

/-! ## Claim C8 -/

/-- Claim C8: a failed chunk adds exactly its size to `rows_failed`
(while succeeding chunks add theirs to `rows_ingested`), every chunk is
still attempted after a failure — the loop, a total function, never
aborts on a bad batch — and a run from offset zero satisfies
`rows_ingested + rows_failed = total data rows`. -/
theorem C8_batch_isolation {α : Type} (hasCk : Bool) (rows : List α)
    (bs : Nat) (hbs : 0 < bs) (insertOk : Nat → Bool) :
    (ingestRun hasCk 0 bs rows insertOk).attempted =
      (csvChunks bs rows).length ∧
    (ingestRun hasCk 0 bs rows insertOk).rowsIngested =
      okRowsL insertOk ((csvChunks bs rows).map List.length) 0 ∧
    (ingestRun hasCk 0 bs rows insertOk).rowsFailed =
      badRowsL insertOk ((csvChunks bs rows).map List.length) 0 ∧
    (ingestRun hasCk 0 bs rows insertOk).rowsIngested +
      (ingestRun hasCk 0 bs rows insertOk).rowsFailed = rows.length := by
  rw [ingestRun, List.drop_zero, ingestLoop_spec]
  refine ⟨by simp [initIngest], by simp [initIngest], by simp [initIngest], ?_⟩
  simp only [initIngest, Nat.zero_add]
  rw [okRowsL_add_badRowsL]
  exact csvChunks_sum_lengths hbs rows

/-- Witness for C8: four one-row chunks with chunk 1 failing; the later
chunks still run and the counters sum to the total. -/
theorem C8_batch_isolation_witness :
    (ingestRun false 0 1 [10, 11, 12, 13] fun i => !(i == 1)).attempted = 4 ∧
    (ingestRun false 0 1 [10, 11, 12, 13] fun i => !(i == 1)).rowsFailed = 1 ∧
    (ingestRun false 0 1 [10, 11, 12, 13] fun i => !(i == 1)).rowsIngested +
      (ingestRun false 0 1 [10, 11, 12, 13] fun i => !(i == 1)).rowsFailed = 4 := by
  have h := C8_batch_isolation false [10, 11, 12, 13] 1 (by decide)
    (fun i => !(i == 1))
  refine ⟨?_, ?_, ?_⟩
  · rw [h.1]; decide
  · rw [h.2.2.1]; decide
  · exact h.2.2.2

/-! ## Claim C6 -/

/-- Counterexample to claim C6: with batch size 30 over 100 rows and
chunk 1 (rows 30–59) failing, the run commits rows 0–29 and 60–99 and
persists `last_row = 70`; a restart resuming at offset 70 re-inserts
row 70, which the first run had already committed — an already-committed
row is inserted again. -/
theorem C6_counterexample :
    (ingestRun true 0 30 (List.range 100) fun i => !(i == 1)).ckTrace.getLast? =
      some 70 ∧
    70 ∈ (ingestRun true 0 30 (List.range 100) fun i => !(i == 1)).committed ∧
    70 ∈ (ingestRun true 70 30 (List.range 100) fun _ => true).committed := by
  decide

/-- Claim C6 as amended: the no-duplication guarantee holds for runs in
which no batch fails: then the committed rows are exactly the rows from
the resume offset on, the persisted checkpoint ends at the source
length, and a restart from that checkpoint inserts nothing. (With a
failed batch followed by committed ones, the persisted
`start_row + rows_ingested` can point below rows that were committed,
and a restart re-inserts them — see the counterexample.) -/
theorem C6_amended_no_failed_batches {α : Type} (rows : List α)
    (startRow bs : Nat) (hbs : 0 < bs) (hsr : startRow ≤ rows.length) :
    (ingestRun true startRow bs rows fun _ => true).committed =
      rows.drop startRow ∧
    ((ingestRun true startRow bs rows fun _ => true).ckTrace.getLast?).getD
      startRow = rows.length ∧
    (ingestRun true
        (((ingestRun true startRow bs rows fun _ => true).ckTrace.getLast?).getD
          startRow) bs rows fun _ => true).committed = [] := by
  have hck : ((ingestRun true startRow bs rows fun _ => true).ckTrace.getLast?).getD
      startRow = rows.length := by
    rw [ingestRun, ingestLoop_spec]
    simp only [initIngest, if_true, List.nil_append]
    have h := ckWritesL_true_getLast startRow
      ((csvChunks bs (rows.drop startRow)).map List.length) 0 0
    rw [Nat.add_zero] at h
    rw [h, Nat.zero_add, csvChunks_sum_lengths hbs, List.length_drop]
    omega
  refine ⟨?_, hck, ?_⟩
  · rw [ingestRun, ingestLoop_spec]
    simp only [initIngest, List.nil_append]
    rw [okJoin_true, csvChunks_join hbs]
  · rw [hck, ingestRun, ingestLoop_spec]
    simp only [initIngest, List.nil_append]
    rw [okJoin_true, csvChunks_join hbs, List.drop_length]

/-- Witness for the amended C6: five rows, resume offset 2, batch
size 2. -/
theorem C6_amended_no_failed_batches_witness :
    (ingestRun true 2 2 [0, 1, 2, 3, 4] fun _ => true).committed = [2, 3, 4] ∧
    ((ingestRun true 2 2 [0, 1, 2, 3, 4] fun _ => true).ckTrace.getLast?).getD 2 =
      5 ∧
    (ingestRun true 5 2 [0, 1, 2, 3, 4] fun _ => true).committed = [] := by
  have h := C6_amended_no_failed_batches [0, 1, 2, 3, 4] 2 2 (by decide)
    (by decide)
  exact ⟨h.1, h.2.1, by rw [h.2.1] at h; exact h.2.2⟩

/-! ## Claim C10 (`src/agents/tools/file_tool.py` and the summary) -/

/-- `FileTool.count_csv_rows` (lines 26–29 of `file_tool.py`):
`sum(1 for _ in f) - 1`, the file's line count minus one for the
header — with no lower bound. -/
def FileTool.count_csv_rows (fileLines : List String) : Int :=
  fileLines.foldl (fun n _ => n + 1) (0 : Int) - 1

/-- The statistics dict built at the end of
`DataIngestionAgent._execute` (lines 136–143 of `data_engineer.py`). -/
structure IngestSummary : Type where
  rows_ingested : Nat
  rows_failed : Nat
  total_rows : Int
  success_rate : ℚ
deriving DecidableEq, Repr

/-- `success_rate = rows_ingested / total_rows if total_rows > 0 else 0`
(line 142 of `data_engineer.py`): the guard tests strict positivity, not
`total_rows != 0`. -/
def mkIngestSummary {α : Type} (totalRows : Int) (st : IngestState α) :
    IngestSummary :=
  ⟨st.rowsIngested, st.rowsFailed, totalRows,
    if 0 < totalRows then (st.rowsIngested : ℚ) / (totalRows : ℚ) else 0⟩

/-- `_execute` end to end on a source file given as its list of lines:
`total_rows` comes from `count_csv_rows` on the whole file, the data
rows fed to the chunked reader are the lines after the header (the CSV
parser collaborator is modelled as the identity on lines). -/
def DataIngestionAgent.execute_run (hasCk : Bool) (startRow bs : Nat)
    (fileLines : List String) (insertOk : Nat → Bool) : IngestSummary :=
  mkIngestSummary (FileTool.count_csv_rows fileLines)
    (ingestRun hasCk startRow bs (fileLines.drop 1) insertOk)

/-- Claim C10: `count_csv_rows` returns the line count minus one with no
lower bound — `-1` on a zero-line file — so the summary's `total_rows`
can be negative; and since the `success_rate` guard tests
`total_rows > 0` rather than `== 0`, the rate is reported as `0` for
every non-positive `total_rows`. -/
theorem C10_count_csv_rows_and_rate_guard :
    (∀ fileLines : List String,
      FileTool.count_csv_rows fileLines = (fileLines.length : Int) - 1) ∧
    FileTool.count_csv_rows [] = -1 ∧
    (∀ (hasCk : Bool) (bs : Nat) (insertOk : Nat → Bool),
      (DataIngestionAgent.execute_run hasCk 0 bs [] insertOk).total_rows = -1 ∧
      (DataIngestionAgent.execute_run hasCk 0 bs [] insertOk).success_rate = 0) ∧
    (∀ (totalRows : Int) (st : IngestState String), totalRows ≤ 0 →
      (mkIngestSummary totalRows st).success_rate = 0) := by
  have hfold : ∀ (l : List String) (c : Int),
      l.foldl (fun n _ => n + 1) c = c + l.length := by
    intro l
    induction l with
    | nil => intro c; simp
    | cons a l ih =>
      intro c
      rw [List.foldl_cons, ih (c + 1), List.length_cons]
      push_cast
      ring
  have hcount : ∀ fileLines : List String,
      FileTool.count_csv_rows fileLines = (fileLines.length : Int) - 1 := by
    intro fileLines
    rw [FileTool.count_csv_rows, hfold]
    omega
  refine ⟨hcount, by rw [hcount]; rfl, ?_, ?_⟩
  · intro hasCk bs insertOk
    constructor
    · rw [DataIngestionAgent.execute_run, mkIngestSummary, hcount]
      rfl
    · rw [DataIngestionAgent.execute_run, mkIngestSummary, hcount]
      simp
  · intro totalRows st h
    rw [mkIngestSummary, if_neg (by omega)]

/-- Witness for C10: the summary of a negative `total_rows` reports a
zero success rate. -/
theorem C10_count_csv_rows_and_rate_guard_witness :
    (mkIngestSummary (-1) (initIngest : IngestState String)).success_rate = 0 :=
  C10_count_csv_rows_and_rate_guard.2.2.2 (-1) initIngest (by omega)

/-! ## Connection retry
(`src/agents/examples/example_data_ingestion_agent.py`)

`_connect_with_retry` (lines 263–280) tries
`for attempt in range(max_retries)`: a successful `psycopg2.connect`
returns; on `OperationalError`, if `attempt == max_retries - 1` the
fault is re-raised, otherwise the loop sleeps `2 ** attempt` seconds and
retries. `connectOk attempt` is the outcome of the `attempt`-th connect
call; the recorded list holds the sleep durations in order. -/

/-- Outcome of `_connect_with_retry`: a connection, the re-raised final
fault, or falling off the loop (returning `None`) — the last is possible
only when `max_retries = 0`. -/
inductive ConnectOutcome : Type
  | connected
  | raised
  | fellThrough
deriving DecidableEq, Repr

/-- The retry loop body, structurally recursive in the number of
`remaining` iterations of `range(max_retries)`. -/
def connectLoopAux (connectOk : Nat → Bool) (maxRetries : Nat) :
    Nat → Nat → List Nat → ConnectOutcome × List Nat
  | 0, _, sleeps => (ConnectOutcome.fellThrough, sleeps)
  | remaining + 1, attempt, sleeps =>
      if connectOk attempt then (ConnectOutcome.connected, sleeps)
      else if attempt = maxRetries - 1 then (ConnectOutcome.raised, sleeps)
      else connectLoopAux connectOk maxRetries remaining (attempt + 1)
        (sleeps ++ [2 ^ attempt])

/-- `_connect_with_retry`. -/
def connectWithRetry (connectOk : Nat → Bool) (maxRetries : Nat) :
    ConnectOutcome × List Nat :=
  connectLoopAux connectOk maxRetries maxRetries 0 []

/-- For `maxRetries ≥ 1` the loop always either connects or re-raises;
the `fellThrough` case (Python returning `None`) needs an empty
`range`. -/
theorem connectLoopAux_ne_fellThrough (connectOk : Nat → Bool)
    (maxRetries : Nat) :
    ∀ (remaining attempt : Nat) (sleeps : List Nat),
      attempt + remaining = maxRetries → 0 < remaining →
      (connectLoopAux connectOk maxRetries remaining attempt sleeps).1 ≠
        ConnectOutcome.fellThrough := by
  intro remaining
  induction remaining with
  | zero => intro attempt sleeps _ h; omega
  | succ r ih =>
    intro attempt sleeps hsum _
    rw [connectLoopAux]
    rcases h : connectOk attempt with _ | _
    · rcases hlast : decide (attempt = maxRetries - 1) with _ | _
      · have hne : ¬ attempt = maxRetries - 1 := of_decide_eq_false hlast
        rw [if_neg (by simp [h]), if_neg hne]
        exact ih (attempt + 1) (sleeps ++ [2 ^ attempt]) (by omega) (by omega)
      · rw [if_neg (by simp [h]), if_pos (of_decide_eq_true hlast)]
        simp
    · rw [if_pos rfl]
      simp

/-- The failure path of the example agent's `_execute` (lines 202–261):
the destination connection is opened by `_connect_with_retry` before any
row is read or inserted; when the retry loop re-raises (or, with
`max_retries = 0`, `conn` is `None` and the final `conn.close()`
raises), the call fails with no batch ever inserted — modelled by the
empty committed-row list. On a connection, the batch loop runs from
offset zero with no checkpointing (the example agent has none). -/
def exampleIngestExecute {α : Type} (connectOk : Nat → Bool)
    (maxRetries : Nat) (rows : List α) (bs : Nat) (insertOk : Nat → Bool) :
    Except Unit (IngestState α) × List Nat × List α :=
  match connectWithRetry connectOk maxRetries with
  | (ConnectOutcome.connected, sleeps) =>
      let st := ingestRun false 0 bs rows insertOk
      (Except.ok st, sleeps, st.committed)
  | (ConnectOutcome.raised, sleeps) => (Except.error (), sleeps, [])
  | (ConnectOutcome.fellThrough, sleeps) => (Except.error (), sleeps, [])

/-! ## Claim C9 -/

/-- Claim C9: with `maxRetries = 3`, a connection failing on attempts 0
and 1 and succeeding on attempt 2 sleeps exactly twice, for 2^0 = 1 and
2^1 = 2 time units, and the run then proceeds normally; a connection
failing on all three attempts re-raises the final fault with no third
sleep — the sleep list is still `[1, 2]` — and the ingestion fails with
no row written to the destination. -/
theorem C9_connect_retry {α : Type} (connectOk : Nat → Bool) (rows : List α)
    (bs : Nat) (insertOk : Nat → Bool) :
    (connectOk 0 = false → connectOk 1 = false → connectOk 2 = true →
      connectWithRetry connectOk 3 = (ConnectOutcome.connected, [1, 2]) ∧
      exampleIngestExecute connectOk 3 rows bs insertOk =
        (Except.ok (ingestRun false 0 bs rows insertOk), [1, 2],
          (ingestRun false 0 bs rows insertOk).committed)) ∧
    (connectOk 0 = false → connectOk 1 = false → connectOk 2 = false →
      connectWithRetry connectOk 3 = (ConnectOutcome.raised, [1, 2]) ∧
      exampleIngestExecute connectOk 3 rows bs insertOk =
        (Except.error (), [1, 2], [])) := by
  constructor
  · intro h0 h1 h2
    have hc : connectWithRetry connectOk 3 = (ConnectOutcome.connected, [1, 2]) := by
      rw [connectWithRetry, connectLoopAux, if_neg (by simp [h0]),
        if_neg (by omega), connectLoopAux, if_neg (by simp [h1]),
        if_neg (by omega), connectLoopAux, if_pos h2]
      rfl
    exact ⟨hc, by rw [exampleIngestExecute, hc]⟩
  · intro h0 h1 h2
    have hc : connectWithRetry connectOk 3 = (ConnectOutcome.raised, [1, 2]) := by
      rw [connectWithRetry, connectLoopAux, if_neg (by simp [h0]),
        if_neg (by omega), connectLoopAux, if_neg (by simp [h1]),
        if_neg (by omega), connectLoopAux, if_neg (by simp [h2]),
        if_pos (by omega)]
      rfl
    exact ⟨hc, by rw [exampleIngestExecute, hc]⟩

/-- Witness for C9: concrete connect oracles succeeding on the third
attempt, resp. never. -/
theorem C9_connect_retry_witness :
    connectWithRetry (fun i => i == 2) 3 = (ConnectOutcome.connected, [1, 2]) ∧
    exampleIngestExecute (fun _ => false) 3 [0, 1] 1 (fun _ => true) =
      (Except.error (), [1, 2], []) := by
  constructor
  · exact ((C9_connect_retry (fun i => i == 2) ([] : List Nat) 1
      (fun _ => true)).1 rfl rfl rfl).1
  · exact ((C9_connect_retry (fun _ => false) [0, 1] 1
      (fun _ => true)).2 rfl rfl rfl).2

end MediAI
